import Mathlib

/-!
Verification of `scripts/convert_yolov8n-seg_to_onnx.py`, a CLI script that
converts a YOLO checkpoint to ONNX via the ultralytics library, optionally
relocates the produced artifact, and validates it with the `onnx` checker.

The script is embedded shallowly:

* The filesystem is a map from path strings to file contents (`Option Nat`)
  together with a set of existing directories.  `pathlib.Path` values are kept
  as their string form (the script only ever compares `str(...)` forms and
  joins with `/`), so path normalisation performed by `pathlib` on degenerate
  inputs is not modelled.
* The two external libraries (ultralytics' `YOLO`/`export` and the `onnx`
  checker) are oracles: an `Env` record fixes, for one invocation, whether the
  load succeeds, whether the export succeeds, the path and content the export
  writes on success, and the verification outcome.  An external call is atomic
  in the model: on failure it changes no filesystem state.
* `print` output is modelled as a log of strings; purely informational lines
  (banners, model info, shape dumps) are elided, the lines carrying error,
  warning or result information are kept verbatim.
* Raised exceptions become `Except` errors (`FileNotFoundError` and
  `RuntimeError` constructors); `sys.exit(1)` becomes exit code 1.
* The result records additionally trace every `YOLO(...)` load attempt, every
  `model.export(...)` call with its full keyword configuration, and every
  `shutil.move` performed, so that "no retry" and "fixed configuration"
  properties are statable.
-/

namespace PotholeConvert

/-- A filesystem: file contents are abstracted to `Nat` identifiers. -/
structure FS where
  files : String → Option Nat
  dirs : String → Bool

/-- `Path(p).exists()`: true if a file or a directory is present at `p`. -/
def FS.pathExists (fs : FS) (p : String) : Bool :=
  (fs.files p).isSome || fs.dirs p

/-- `Path(p).parent` for string paths built with `/` separators. -/
def parentOf (p : String) : String :=
  match (p.splitOn "/").dropLast with
  | [] => "."
  | [""] => "/"
  | ps => String.intercalate "/" ps

/-- The chain `p`, `parentOf p`, ... up to a fixpoint, bounded by fuel. -/
def ancestorChain : Nat → String → List String
  | 0, _ => []
  | n + 1, p =>
      if parentOf p = p then [p] else p :: ancestorChain n (parentOf p)

/-- `Path(d).mkdir(parents=True, exist_ok=True)`: creates `d` and all its
ancestors; existing entries are untouched. -/
def FS.mkdirParents (fs : FS) (d : String) : FS :=
  { fs with dirs := fun x =>
      if x ∈ ancestorChain (d.length + 1) d then true else fs.dirs x }

/-- `shutil.move(src, dst)` with a file destination: the destination is
overwritten with the source's content and the source entry is removed. -/
def FS.moveFile (fs : FS) (src dst : String) : FS :=
  { fs with files := fun p =>
      if p = dst then fs.files src
      else if p = src then none
      else fs.files p }

/-- Creation of a file by the external export call. -/
def FS.writeFile (fs : FS) (p : String) (c : Nat) : FS :=
  { fs with files := fun q => if q = p then some c else fs.files q }

/-- Outcome of the post-export verification block (`import onnx`,
`onnx.load`, `onnx.checker.check_model`). -/
inductive VerifyOutcome where
  /-- `import onnx` raises `ImportError`. -/
  | importError : VerifyOutcome
  /-- load and check succeed. -/
  | pass : VerifyOutcome
  /-- load or check raises; carries the exception text. -/
  | checkFail (msg : String) : VerifyOutcome
deriving DecidableEq

/-- The keyword configuration handed to `model.export(...)`. -/
structure ExportCall where
  format : String
  imgsz : Nat
  simplify : Bool
  opset : Nat
  nms : Bool
  dynamic : Bool
deriving DecidableEq

/-- Oracle fixing the behaviour of the external libraries for one run. -/
structure Env where
  /-- does `YOLO(model_path)` succeed? -/
  loadOk : Bool
  /-- exception text when the load fails. -/
  loadErr : String
  /-- does `model.export(...)` succeed? -/
  exportOk : Bool
  /-- exception text when the export fails. -/
  exportErr : String
  /-- the path `model.export` returns (and writes) on success. -/
  exportedPath : String
  /-- the content identifier of the file the export writes. -/
  exportedContent : Nat
  /-- outcome of the verification block. -/
  verify : VerifyOutcome

/-- The exceptions the script raises itself. -/
inductive ConvError where
  | fileNotFound (msg : String) : ConvError
  | runtimeError (msg : String) : ConvError
deriving DecidableEq

/-- `str(e)` of a raised exception, as printed by `main`. -/
def ConvError.message : ConvError → String
  | .fileNotFound m => m
  | .runtimeError m => m

/-- Observable outcome of one call of `convert_yolo_to_onnx`. -/
structure DriverResult where
  /-- the returned exported path, or the exception propagated to the caller. -/
  result : Except ConvError String
  /-- filesystem after the call. -/
  fs : FS
  /-- warning / result lines printed. -/
  log : List String
  /-- every `YOLO(path)` load attempted, in order. -/
  loads : List String
  /-- every `model.export(...)` call attempted, in order. -/
  calls : List ExportCall
  /-- every `shutil.move(src, dst)` performed, in order. -/
  moves : List (String × String)

/-- The warning / result line printed by the inner verification block
(`try: import onnx ... except ImportError ... except Exception as e`). -/
def verify_log : VerifyOutcome → List String
  | .importError => ["Warning: onnx package not installed. Skipping verification."]
  | .pass => ["✓ ONNX model verification passed!"]
  | .checkFail msg => ["Warning: ONNX verification failed: " ++ msg]

/-- Shallow embedding of `convert_yolo_to_onnx(model_path, output_path=None,
imgsz=640, simplify=False, opset=17)` (script lines 18–113). -/
def convert_yolo_to_onnx (env : Env) (fs : FS) (model_path : String)
    (output_path : Option String) (imgsz : Nat) (simplify : Bool)
    (opset : Nat) : DriverResult :=
  -- `if not Path(model_path).exists(): raise FileNotFoundError(...)`
  if fs.pathExists model_path = false then
    { result := .error (.fileNotFound ("Model file not found: " ++ model_path))
      fs := fs, log := [], loads := [], calls := [], moves := [] }
  -- `try: model = YOLO(model_path) ... except Exception as e:
  --    raise RuntimeError(f"Failed to load YOLO model: {e}")`
  else if env.loadOk = false then
    { result := .error (.runtimeError ("Failed to load YOLO model: " ++ env.loadErr))
      fs := fs, log := [], loads := [model_path], calls := [], moves := [] }
  else
    -- `exported_path = model.export(format='onnx', imgsz=imgsz,
    --    simplify=simplify, opset=opset, nms=True, dynamic=False)`
    let call : ExportCall :=
      { format := "onnx", imgsz := imgsz, simplify := simplify,
        opset := opset, nms := true, dynamic := false }
    if env.exportOk = false then
      -- `except Exception as e: raise RuntimeError(f"Failed to export model to ONNX: {e}")`
      { result := .error (.runtimeError ("Failed to export model to ONNX: " ++ env.exportErr))
        fs := fs, log := [], loads := [model_path], calls := [call], moves := [] }
    else
      let fs1 := fs.writeFile env.exportedPath env.exportedContent
      -- `if output_path and str(exported_path) != str(output_path):`
      let step : FS × String × List (String × String) :=
        match output_path with
        | some op =>
            if op ≠ "" ∧ env.exportedPath ≠ op then
              -- `output_path.parent.mkdir(parents=True, exist_ok=True)`
              -- `shutil.move(str(exported_path), str(output_path))`
              -- `exported_path = output_path`
              (FS.moveFile (FS.mkdirParents fs1 (parentOf op)) env.exportedPath op,
               op, [(env.exportedPath, op)])
            else (fs1, env.exportedPath, [])
        | none => (fs1, env.exportedPath, [])
      -- `return exported_path`
      { result := .ok step.2.1
        fs := step.1
        log := ("✓ Successfully exported model to: " ++ step.2.1)
                 :: verify_log env.verify
        loads := [model_path], calls := [call], moves := step.2.2 }

/-- Default `model_path` in `main`:
`script_dir / "public" / "models" / "yolov8n-seg-pothole.pt"`. -/
def default_model_path (script_dir : String) : String :=
  script_dir ++ "/public/models/yolov8n-seg-pothole.pt"

/-- Default `output_path` in `main`:
`script_dir / "public" / "models" / "yolov8n-seg-pothole.onnx"`. -/
def default_output_path (script_dir : String) : String :=
  script_dir ++ "/public/models/yolov8n-seg-pothole.onnx"

/-- Path resolution in `main` (script lines 118–127): `argv` is the full
`sys.argv`, entry 0 being the program name.  The first positional argument
replaces the input path, the second the output path. -/
def resolve_paths (script_dir : String) (argv : List String) : String × String :=
  let model_path :=
    if argv.length > 1 then argv.getD 1 "" else default_model_path script_dir
  let output_path :=
    if argv.length > 2 then argv.getD 2 "" else default_output_path script_dir
  (model_path, output_path)

/-- Observable outcome of one invocation of the script. -/
structure MainResult where
  /-- the process exit status (`sys.exit(1)` on error, 0 otherwise). -/
  exitCode : Nat
  /-- filesystem after the run. -/
  fs : FS
  /-- error / warning / result lines printed. -/
  log : List String
  loads : List String
  calls : List ExportCall
  moves : List (String × String)

/-- Shallow embedding of `main()` (script lines 116–151): resolves paths,
calls the driver with `imgsz=640, simplify=True, opset=17`, and translates a
raised exception into a printed message plus exit code 1. -/
def main (env : Env) (fs : FS) (script_dir : String) (argv : List String) :
    MainResult :=
  let model_path := (resolve_paths script_dir argv).1
  let output_path := (resolve_paths script_dir argv).2
  let r := convert_yolo_to_onnx env fs model_path (some output_path) 640 true 17
  match r.result with
  | .ok exported_path =>
      { exitCode := 0, fs := r.fs
        log := r.log ++ ["Conversion completed successfully!",
                         "ONNX model saved to: " ++ exported_path]
        loads := r.loads, calls := r.calls, moves := r.moves }
  | .error e =>
      { exitCode := 1, fs := r.fs
        log := r.log ++ ["✗ Error: " ++ e.message]
        loads := r.loads, calls := r.calls, moves := r.moves }

/-- The fixed configuration every export call of this script uses. -/
def fixedExportCall : ExportCall :=
  { format := "onnx", imgsz := 640, simplify := true, opset := 17,
    nms := true, dynamic := false }

/-- An empty filesystem, used as a concrete evaluation point. -/
def fsEmpty : FS := { files := fun _ => none, dirs := fun _ => false }

/-- A filesystem holding exactly one file `m.pt`. -/
def fsOne : FS :=
  { files := fun p => if p = "m.pt" then some 1 else none, dirs := fun _ => false }

/-- A fully successful environment, used as a concrete evaluation point. -/
def envOk : Env :=
  { loadOk := true, loadErr := "", exportOk := true, exportErr := ""
    exportedPath := "m.onnx", exportedContent := 7, verify := .pass }

/-- An environment whose load step fails. -/
def envLoadFail : Env :=
  { loadOk := false, loadErr := "bad checkpoint", exportOk := true, exportErr := ""
    exportedPath := "m.onnx", exportedContent := 7, verify := .pass }

/-- An environment whose export step fails. -/
def envExportFail : Env :=
  { loadOk := true, loadErr := "", exportOk := false, exportErr := "trace error"
    exportedPath := "m.onnx", exportedContent := 7, verify := .pass }

/-- An environment whose post-export verification fails. -/
def envVerifyFail : Env :=
  { loadOk := true, loadErr := "", exportOk := true, exportErr := ""
    exportedPath := "m.onnx", exportedContent := 7, verify := .checkFail "invalid graph" }

/-- An environment whose export location names the same file as the requested
output path under a different spelling. -/
def envSpell : Env :=
  { loadOk := true, loadErr := "", exportOk := true, exportErr := ""
    exportedPath := "models/a.onnx", exportedContent := 7, verify := .pass }

/-! ### Helper lemmas -/

lemma mem_ancestorChain_self (n : Nat) (p : String) :
    p ∈ ancestorChain (n + 1) p := by
  unfold ancestorChain
  split <;> simp

/-- On a run whose load and export both succeed and whose output path is a
non-empty string, the driver returns the output path, leaves the exported
content there, touches no other file except the library's export location,
and only ever adds directories. -/
lemma driver_success (env : Env) (fs : FS) (mp out : String)
    (imgsz : Nat) (simplify : Bool) (opset : Nat)
    (h1 : fs.pathExists mp = true) (h2 : env.loadOk = true)
    (h3 : env.exportOk = true) (h4 : out ≠ "") :
    (convert_yolo_to_onnx env fs mp (some out) imgsz simplify opset).result
        = .ok out ∧
    (convert_yolo_to_onnx env fs mp (some out) imgsz simplify opset).fs.files out
        = some env.exportedContent ∧
    (∀ q, q ≠ out → q ≠ env.exportedPath →
      (convert_yolo_to_onnx env fs mp (some out) imgsz simplify opset).fs.files q
        = fs.files q) ∧
    (∀ d, fs.dirs d = true →
      (convert_yolo_to_onnx env fs mp (some out) imgsz simplify opset).fs.dirs d
        = true) := by
  by_cases h5 : env.exportedPath = out
  · simp [convert_yolo_to_onnx, h1, h2, h3, h5, FS.writeFile]
    exact fun q hq hq2 => absurd hq2 hq
  · simp [convert_yolo_to_onnx, h1, h2, h3, h4, h5, FS.moveFile, FS.mkdirParents,
      FS.writeFile]
    refine ⟨fun q hq hq2 => ?_, fun d hd => ?_⟩
    · simp [hq, hq2]
    · simp [hd]

/-- A successful run through `main`: exit code 0, the resolved output path
holds the exported content, other files (apart from the library's export
location) are untouched, and directories only grow. -/
lemma main_success (env : Env) (fs : FS) (sd : String) (argv : List String)
    (h1 : fs.pathExists (resolve_paths sd argv).1 = true)
    (h2 : env.loadOk = true) (h3 : env.exportOk = true)
    (h4 : (resolve_paths sd argv).2 ≠ "") :
    (main env fs sd argv).exitCode = 0 ∧
    (main env fs sd argv).fs.files (resolve_paths sd argv).2
        = some env.exportedContent ∧
    (∀ q, q ≠ (resolve_paths sd argv).2 → q ≠ env.exportedPath →
      (main env fs sd argv).fs.files q = fs.files q) ∧
    (∀ d, fs.dirs d = true → (main env fs sd argv).fs.dirs d = true) := by
  obtain ⟨hres, hfile, hother, hdirs⟩ :=
    driver_success env fs (resolve_paths sd argv).1 (resolve_paths sd argv).2
      640 true 17 h1 h2 h3 h4
  simp only [main, hres]
  exact ⟨trivial, hfile, hother, hdirs⟩

/-- On a run whose load and export both succeed, the driver returns some path
and its log is the success line followed by the verification block's line. -/
lemma driver_success_log (env : Env) (fs : FS) (mp : String) (op : Option String)
    (imgsz : Nat) (simplify : Bool) (opset : Nat)
    (h1 : fs.pathExists mp = true) (h2 : env.loadOk = true)
    (h3 : env.exportOk = true) :
    ∃ p, (convert_yolo_to_onnx env fs mp op imgsz simplify opset).result = .ok p ∧
      (convert_yolo_to_onnx env fs mp op imgsz simplify opset).log
        = ("✓ Successfully exported model to: " ++ p) :: verify_log env.verify := by
  rcases op with _ | o
  · exact ⟨env.exportedPath, by simp [convert_yolo_to_onnx, h1, h2, h3]⟩
  · by_cases hc : o ≠ "" ∧ env.exportedPath ≠ o
    · exact ⟨o, by simp [convert_yolo_to_onnx, h1, h2, h3, hc.1, hc.2]⟩
    · exact ⟨env.exportedPath, by simp [convert_yolo_to_onnx, h1, h2, h3, hc]⟩

/-- Whatever the environment, the driver performs either zero export calls or
exactly one, and that one carries `format='onnx'`, the caller's `imgsz`,
`simplify` and `opset`, `nms=True` and `dynamic=False`. -/
lemma driver_calls (env : Env) (fs : FS) (mp : String) (op : Option String)
    (imgsz : Nat) (simplify : Bool) (opset : Nat) :
    (convert_yolo_to_onnx env fs mp op imgsz simplify opset).calls = [] ∨
    (convert_yolo_to_onnx env fs mp op imgsz simplify opset).calls
      = [{ format := "onnx", imgsz := imgsz, simplify := simplify, opset := opset,
           nms := true, dynamic := false }] := by
  unfold convert_yolo_to_onnx
  split
  · exact Or.inl rfl
  · split
    · exact Or.inl rfl
    · split
      · exact Or.inr rfl
      · exact Or.inr rfl

/-! ### Claims -/

/-- Claim C1: for a nonexistent input path, the driver raises a not-found
error before any load or export attempt, the entry point prints the error and
exits with code 1, and the filesystem — in particular every output path — is
left exactly as it was. -/
theorem c1_nonexistent_input (env : Env) (fs : FS) (sd : String)
    (argv : List String)
    (h : fs.pathExists (resolve_paths sd argv).1 = false) :
    (main env fs sd argv).exitCode = 1 ∧
    (main env fs sd argv).fs = fs ∧
    (main env fs sd argv).loads = [] ∧
    (main env fs sd argv).calls = [] ∧
    ("✗ Error: " ++ ("Model file not found: " ++ (resolve_paths sd argv).1))
      ∈ (main env fs sd argv).log := by
  simp [main, convert_yolo_to_onnx, h, ConvError.message]

/-- Witness for C1 at a concrete input. -/
theorem c1_nonexistent_input_witness :
    (main envOk fsEmpty "proj" ["c.py", "missing.pt"]).exitCode = 1 ∧
    (main envOk fsEmpty "proj" ["c.py", "missing.pt"]).fs = fsEmpty ∧
    (main envOk fsEmpty "proj" ["c.py", "missing.pt"]).loads = [] ∧
    (main envOk fsEmpty "proj" ["c.py", "missing.pt"]).calls = [] ∧
    ("✗ Error: " ++ ("Model file not found: "
        ++ (resolve_paths "proj" ["c.py", "missing.pt"]).1))
      ∈ (main envOk fsEmpty "proj" ["c.py", "missing.pt"]).log :=
  c1_nonexistent_input envOk fsEmpty "proj" ["c.py", "missing.pt"] (by rfl)

/-- Claim C2: when the export succeeds but the post-export validator fails
(either because the `onnx` package is missing or because the checker rejects
the graph), the failure is only printed as a warning, the driver still returns
the artifact path (which the entry point reports), and the process exits with
code 0. -/
theorem c2_verify_failure_nonfatal (env : Env) (fs : FS) (sd : String)
    (argv : List String)
    (h1 : fs.pathExists (resolve_paths sd argv).1 = true)
    (h2 : env.loadOk = true) (h3 : env.exportOk = true) :
    (main env fs sd argv).exitCode = 0 ∧
    (∃ p, (convert_yolo_to_onnx env fs (resolve_paths sd argv).1
            (some (resolve_paths sd argv).2) 640 true 17).result = .ok p ∧
          ("ONNX model saved to: " ++ p) ∈ (main env fs sd argv).log) ∧
    (env.verify = .importError →
      "Warning: onnx package not installed. Skipping verification."
        ∈ (main env fs sd argv).log) ∧
    (∀ m, env.verify = .checkFail m →
      ("Warning: ONNX verification failed: " ++ m) ∈ (main env fs sd argv).log) := by
  obtain ⟨p, hres, hlog⟩ :=
    driver_success_log env fs (resolve_paths sd argv).1
      (some (resolve_paths sd argv).2) 640 true 17 h1 h2 h3
  simp only [main, hres]
  refine ⟨trivial, ⟨p, rfl, ?_⟩, ?_, ?_⟩
  · simp
  · intro hv
    simp [hlog, hv, verify_log]
  · intro m hv
    simp [hlog, hv, verify_log]

/-- Witness for C2 at a concrete input whose checker rejects the graph. -/
theorem c2_verify_failure_nonfatal_witness :
    (main envVerifyFail fsOne "proj" ["c.py", "m.pt", "out/a.onnx"]).exitCode = 0 ∧
    (∃ p, (convert_yolo_to_onnx envVerifyFail fsOne
            (resolve_paths "proj" ["c.py", "m.pt", "out/a.onnx"]).1
            (some (resolve_paths "proj" ["c.py", "m.pt", "out/a.onnx"]).2)
            640 true 17).result = .ok p ∧
          ("ONNX model saved to: " ++ p)
            ∈ (main envVerifyFail fsOne "proj" ["c.py", "m.pt", "out/a.onnx"]).log) ∧
    (envVerifyFail.verify = .importError →
      "Warning: onnx package not installed. Skipping verification."
        ∈ (main envVerifyFail fsOne "proj" ["c.py", "m.pt", "out/a.onnx"]).log) ∧
    (∀ m, envVerifyFail.verify = .checkFail m →
      ("Warning: ONNX verification failed: " ++ m)
        ∈ (main envVerifyFail fsOne "proj" ["c.py", "m.pt", "out/a.onnx"]).log) :=
  c2_verify_failure_nonfatal envVerifyFail fsOne "proj"
    ["c.py", "m.pt", "out/a.onnx"] (by rfl) (by rfl) (by rfl)

/-- Claim C3: on a successful export with an explicit output path that differs
from the path the export library returned, the driver creates the output
path's parent directory, moves the exported file so the artifact resides
exactly at the requested path (the source location is emptied), and returns
that path. -/
theorem c3_explicit_output_relocation (env : Env) (fs : FS) (mp out : String)
    (imgsz : Nat) (simplify : Bool) (opset : Nat)
    (h1 : fs.pathExists mp = true) (h2 : env.loadOk = true)
    (h3 : env.exportOk = true) (h4 : out ≠ "") (h5 : env.exportedPath ≠ out) :
    (convert_yolo_to_onnx env fs mp (some out) imgsz simplify opset).result
        = .ok out ∧
    (convert_yolo_to_onnx env fs mp (some out) imgsz simplify opset).fs.files out
        = some env.exportedContent ∧
    (convert_yolo_to_onnx env fs mp (some out) imgsz simplify opset).fs.dirs
        (parentOf out) = true ∧
    (convert_yolo_to_onnx env fs mp (some out) imgsz simplify opset).fs.files
        env.exportedPath = none ∧
    (convert_yolo_to_onnx env fs mp (some out) imgsz simplify opset).moves
        = [(env.exportedPath, out)] := by
  simp [convert_yolo_to_onnx, h1, h2, h3, h4, h5, FS.moveFile, FS.mkdirParents,
    FS.writeFile, mem_ancestorChain_self]

/-- Witness for C3 at a concrete input with a fresh output directory. -/
theorem c3_explicit_output_relocation_witness :
    (convert_yolo_to_onnx envOk fsOne "m.pt" (some "out/a.onnx") 640 true 17).result
        = .ok "out/a.onnx" ∧
    (convert_yolo_to_onnx envOk fsOne "m.pt" (some "out/a.onnx") 640 true
        17).fs.files "out/a.onnx" = some envOk.exportedContent ∧
    (convert_yolo_to_onnx envOk fsOne "m.pt" (some "out/a.onnx") 640 true
        17).fs.dirs (parentOf "out/a.onnx") = true ∧
    (convert_yolo_to_onnx envOk fsOne "m.pt" (some "out/a.onnx") 640 true
        17).fs.files envOk.exportedPath = none ∧
    (convert_yolo_to_onnx envOk fsOne "m.pt" (some "out/a.onnx") 640 true
        17).moves = [(envOk.exportedPath, "out/a.onnx")] :=
  c3_explicit_output_relocation envOk fsOne "m.pt" "out/a.onnx" 640 true 17
    (by rfl) (by rfl) (by rfl) (by decide) (by decide)

/-- Claim C4: when the export call raises, the driver re-raises a
`RuntimeError` carrying the export-failure context message, exactly one export
call was attempted (no retry), and the process exits with code 1. -/
theorem c4_export_failure_wrapped (env : Env) (fs : FS) (sd : String)
    (argv : List String)
    (h1 : fs.pathExists (resolve_paths sd argv).1 = true)
    (h2 : env.loadOk = true) (h3 : env.exportOk = false) :
    (∀ (op : Option String) (imgsz : Nat) (simplify : Bool) (opset : Nat),
      (convert_yolo_to_onnx env fs (resolve_paths sd argv).1 op imgsz simplify
        opset).result
        = .error (.runtimeError ("Failed to export model to ONNX: "
            ++ env.exportErr))) ∧
    (main env fs sd argv).calls
      = [{ format := "onnx", imgsz := 640, simplify := true, opset := 17,
           nms := true, dynamic := false }] ∧
    (main env fs sd argv).exitCode = 1 := by
  refine ⟨fun op imgsz simplify opset => ?_, ?_, ?_⟩ <;>
    simp [main, convert_yolo_to_onnx, h1, h2, h3]

/-- Witness for C4 at a concrete input whose export call fails. -/
theorem c4_export_failure_wrapped_witness :
    (∀ (op : Option String) (imgsz : Nat) (simplify : Bool) (opset : Nat),
      (convert_yolo_to_onnx envExportFail fsOne
        (resolve_paths "proj" ["c.py", "m.pt", "out/a.onnx"]).1 op imgsz simplify
        opset).result
        = .error (.runtimeError ("Failed to export model to ONNX: "
            ++ envExportFail.exportErr))) ∧
    (main envExportFail fsOne "proj" ["c.py", "m.pt", "out/a.onnx"]).calls
      = [{ format := "onnx", imgsz := 640, simplify := true, opset := 17,
           nms := true, dynamic := false }] ∧
    (main envExportFail fsOne "proj" ["c.py", "m.pt", "out/a.onnx"]).exitCode = 1 :=
  c4_export_failure_wrapped envExportFail fsOne "proj"
    ["c.py", "m.pt", "out/a.onnx"] (by rfl) (by rfl) (by rfl)

/-- Claim C5: when the export call fails, the filesystem — in particular the
caller-requested output path — is left exactly as it was, and the process
exits with code 1. -/
theorem c5_export_failure_output_untouched (env : Env) (fs : FS) (sd : String)
    (argv : List String)
    (h1 : fs.pathExists (resolve_paths sd argv).1 = true)
    (h2 : env.loadOk = true) (h3 : env.exportOk = false) :
    (main env fs sd argv).fs = fs ∧
    (main env fs sd argv).fs.files (resolve_paths sd argv).2
        = fs.files (resolve_paths sd argv).2 ∧
    (main env fs sd argv).exitCode = 1 := by
  simp [main, convert_yolo_to_onnx, h1, h2, h3]

/-- Witness for C5 at a concrete input whose export call fails. -/
theorem c5_export_failure_output_untouched_witness :
    (main envExportFail fsOne "proj" ["c.py", "m.pt", "out/a.onnx"]).fs = fsOne ∧
    (main envExportFail fsOne "proj" ["c.py", "m.pt", "out/a.onnx"]).fs.files
        (resolve_paths "proj" ["c.py", "m.pt", "out/a.onnx"]).2
      = fsOne.files (resolve_paths "proj" ["c.py", "m.pt", "out/a.onnx"]).2 ∧
    (main envExportFail fsOne "proj" ["c.py", "m.pt", "out/a.onnx"]).exitCode = 1 :=
  c5_export_failure_output_untouched envExportFail fsOne "proj"
    ["c.py", "m.pt", "out/a.onnx"] (by rfl) (by rfl) (by rfl)

/-- Claim C6: when the checkpoint exists but the external library cannot load
it, the driver raises a `RuntimeError` carrying the load-failure context
message, exactly one load was attempted and no export call was made (no
retry), and the process exits with code 1. -/
theorem c6_load_failure_wrapped (env : Env) (fs : FS) (sd : String)
    (argv : List String)
    (h1 : fs.pathExists (resolve_paths sd argv).1 = true)
    (h2 : env.loadOk = false) :
    (∀ (op : Option String) (imgsz : Nat) (simplify : Bool) (opset : Nat),
      (convert_yolo_to_onnx env fs (resolve_paths sd argv).1 op imgsz simplify
        opset).result
        = .error (.runtimeError ("Failed to load YOLO model: " ++ env.loadErr))) ∧
    (main env fs sd argv).loads = [(resolve_paths sd argv).1] ∧
    (main env fs sd argv).calls = [] ∧
    (main env fs sd argv).exitCode = 1 := by
  refine ⟨fun op imgsz simplify opset => ?_, ?_, ?_, ?_⟩ <;>
    simp [main, convert_yolo_to_onnx, h1, h2]

/-- Witness for C6 at a concrete input whose load fails. -/
theorem c6_load_failure_wrapped_witness :
    (∀ (op : Option String) (imgsz : Nat) (simplify : Bool) (opset : Nat),
      (convert_yolo_to_onnx envLoadFail fsOne
        (resolve_paths "proj" ["c.py", "m.pt", "out/a.onnx"]).1 op imgsz simplify
        opset).result
        = .error (.runtimeError ("Failed to load YOLO model: "
            ++ envLoadFail.loadErr))) ∧
    (main envLoadFail fsOne "proj" ["c.py", "m.pt", "out/a.onnx"]).loads
      = [(resolve_paths "proj" ["c.py", "m.pt", "out/a.onnx"]).1] ∧
    (main envLoadFail fsOne "proj" ["c.py", "m.pt", "out/a.onnx"]).calls = [] ∧
    (main envLoadFail fsOne "proj" ["c.py", "m.pt", "out/a.onnx"]).exitCode = 1 :=
  c6_load_failure_wrapped envLoadFail fsOne "proj" ["c.py", "m.pt", "out/a.onnx"]
    (by rfl) (by rfl)

/-- Claim C7: with zero positional arguments the entry point uses built-in
default paths under the script's project root, the first positional argument
replaces the input path, the second replaces the output path, and the exit
code is 0 exactly when the driver returns and 1 when it raises. -/
theorem c7_cli_resolution (env : Env) (fs : FS) (sd p a b : String)
    (argv : List String) :
    resolve_paths sd [p] = (default_model_path sd, default_output_path sd) ∧
    resolve_paths sd [p, a] = (a, default_output_path sd) ∧
    resolve_paths sd [p, a, b] = (a, b) ∧
    (main env fs sd argv).exitCode =
      (match (convert_yolo_to_onnx env fs (resolve_paths sd argv).1
              (some (resolve_paths sd argv).2) 640 true 17).result with
        | .ok _ => 0
        | .error _ => 1) := by
  refine ⟨rfl, rfl, rfl, ?_⟩
  cases hE : (convert_yolo_to_onnx env fs (resolve_paths sd argv).1
      (some (resolve_paths sd argv).2) 640 true 17).result <;>
    simp [main, hE]

/-- Claim C8: two consecutive runs with the same existing input checkpoint and
the same explicit output path both exit 0, and the second overwrites the
artifact left by the first at that same path: the prior output's existence
causes no failure. -/
theorem c8_rerun_idempotent (env : Env) (fs : FS) (sd : String)
    (argv : List String)
    (h1 : fs.pathExists (resolve_paths sd argv).1 = true)
    (h2 : env.loadOk = true) (h3 : env.exportOk = true)
    (h4 : (resolve_paths sd argv).2 ≠ "")
    (h5 : env.exportedPath ≠ (resolve_paths sd argv).1) :
    (main env fs sd argv).exitCode = 0 ∧
    (main env fs sd argv).fs.files (resolve_paths sd argv).2
        = some env.exportedContent ∧
    (main env (main env fs sd argv).fs sd argv).exitCode = 0 ∧
    (main env (main env fs sd argv).fs sd argv).fs.files (resolve_paths sd argv).2
        = some env.exportedContent := by
  obtain ⟨hexit1, hfile1, hother1, hdirs1⟩ := main_success env fs sd argv h1 h2 h3 h4
  have h1' : (main env fs sd argv).fs.pathExists (resolve_paths sd argv).1
      = true := by
    by_cases hmo : (resolve_paths sd argv).1 = (resolve_paths sd argv).2
    · simp [FS.pathExists, hmo, hfile1]
    · have hpres := hother1 _ hmo (fun hcon => h5 hcon.symm)
      simp [FS.pathExists] at h1 ⊢
      rcases h1 with hf | hd
      · exact Or.inl (hpres ▸ hf)
      · exact Or.inr (hdirs1 _ hd)
  obtain ⟨hexit2, hfile2, _, _⟩ :=
    main_success env (main env fs sd argv).fs sd argv h1' h2 h3 h4
  exact ⟨hexit1, hfile1, hexit2, hfile2⟩

/-- Witness for C8 at a concrete input run twice. -/
theorem c8_rerun_idempotent_witness :
    (main envOk fsOne "proj" ["c.py", "m.pt", "out/a.onnx"]).exitCode = 0 ∧
    (main envOk fsOne "proj" ["c.py", "m.pt", "out/a.onnx"]).fs.files
        (resolve_paths "proj" ["c.py", "m.pt", "out/a.onnx"]).2
      = some envOk.exportedContent ∧
    (main envOk (main envOk fsOne "proj" ["c.py", "m.pt", "out/a.onnx"]).fs "proj"
        ["c.py", "m.pt", "out/a.onnx"]).exitCode = 0 ∧
    (main envOk (main envOk fsOne "proj" ["c.py", "m.pt", "out/a.onnx"]).fs "proj"
        ["c.py", "m.pt", "out/a.onnx"]).fs.files
        (resolve_paths "proj" ["c.py", "m.pt", "out/a.onnx"]).2
      = some envOk.exportedContent :=
  c8_rerun_idempotent envOk fsOne "proj" ["c.py", "m.pt", "out/a.onnx"]
    (by rfl) (by rfl) (by rfl) (by decide) (by decide)

/-- Claim C9: on every invocation of the entry point, every export call made
carries the fixed configuration `format='onnx'`, `imgsz=640`, `simplify=True`,
`opset=17`, `nms=True`, `dynamic=False`, independently of the input. -/
theorem c9_fixed_export_config (env : Env) (fs : FS) (sd : String)
    (argv : List String) :
    (main env fs sd argv).calls.all (fun c => decide (c = fixedExportCall))
      = true := by
  have hc : (main env fs sd argv).calls
      = (convert_yolo_to_onnx env fs (resolve_paths sd argv).1
          (some (resolve_paths sd argv).2) 640 true 17).calls := by
    cases hE : (convert_yolo_to_onnx env fs (resolve_paths sd argv).1
        (some (resolve_paths sd argv).2) 640 true 17).result <;>
      simp [main, hE]
  rcases driver_calls env fs (resolve_paths sd argv).1
      (some (resolve_paths sd argv).2) 640 true 17 with h | h <;>
    rw [hc, h] <;> simp [fixedExportCall]

/-- Claim C10: after a successful export the relocation is decided purely by
string comparison: the file is moved exactly when the supplied output path is
a non-empty string differing from the string the export library returned (so
two spellings of one location still trigger a move), and otherwise the
library's file stays in place and its path is returned unchanged. -/
theorem c10_move_by_string_comparison (env : Env) (fs : FS) (mp : String)
    (op : Option String) (imgsz : Nat) (simplify : Bool) (opset : Nat)
    (h1 : fs.pathExists mp = true) (h2 : env.loadOk = true)
    (h3 : env.exportOk = true) :
    (∀ s, op = some s → s ≠ "" → env.exportedPath ≠ s →
      (convert_yolo_to_onnx env fs mp op imgsz simplify opset).moves
          = [(env.exportedPath, s)] ∧
      (convert_yolo_to_onnx env fs mp op imgsz simplify opset).result = .ok s) ∧
    ((op = none ∨ op = some "" ∨ op = some env.exportedPath) →
      (convert_yolo_to_onnx env fs mp op imgsz simplify opset).moves = [] ∧
      (convert_yolo_to_onnx env fs mp op imgsz simplify opset).result
          = .ok env.exportedPath ∧
      (convert_yolo_to_onnx env fs mp op imgsz simplify opset).fs.files
          env.exportedPath = some env.exportedContent) := by
  constructor
  · rintro s rfl hs hne
    simp [convert_yolo_to_onnx, h1, h2, h3, hs, hne]
  · rintro (rfl | rfl | rfl) <;>
      simp [convert_yolo_to_onnx, h1, h2, h3, FS.writeFile]

/-- Witness for C10: a relative respelling of the export location still
triggers a move, because only the strings are compared. -/
theorem c10_move_by_string_comparison_witness :
    (convert_yolo_to_onnx envSpell fsOne "m.pt" (some "./models/a.onnx")
        640 true 17).moves = [("models/a.onnx", "./models/a.onnx")] ∧
    (convert_yolo_to_onnx envSpell fsOne "m.pt" (some "./models/a.onnx")
        640 true 17).result = .ok "./models/a.onnx" :=
  (c10_move_by_string_comparison envSpell fsOne "m.pt" (some "./models/a.onnx")
      640 true 17 (by rfl) (by rfl) (by rfl)).1 "./models/a.onnx" rfl
    (by decide) (by decide)

end PotholeConvert
